import Mathlib

/-!
Verification development for the tonsoe Discord gateway client
(shard session manager).

The definitions below are a shallow embedding of the Rust source:
  * `src/lib.rs`              — the `DISCORD_API_VERSION` constant;
  * `src/gateway_structs.rs`  — the payload data model (`SessionStartLimit`,
    `GetGatewayBotResponse`, `Hello`, `Identify`,
    `IdentifyConnectionProperties`, `Payload`, `Payload.new`) and the JSON
    shape produced/accepted by the serde derives;
  * `src/bot.rs`              — `ShardingOption`;
  * `src/gateway.rs`          — `GatewayCommand`, `GatewayConnectionIdentifier`,
    `Gateway.heartbeat`, `Gateway.recieve_gateway_events`;
  * `src/websocket.rs`        — `DiscordGatewayClient::new_with_shards`
    (shard-count resolution, gateway URL construction, the bucketed spawn
    loop) and `ShardMap::add_shard_to_map`.

Machine integers (`u32`) are modelled as `Nat`: none of the verified
operations perform arithmetic that can overflow a `u32` (the only arithmetic
is `%` on shard indices and list counting). Time is modelled as `ℚ`
(milliseconds), and the `f32` jitter factor as a rational in `[0, 1)`.
Effects are modelled as explicit traces: the spawn loop produces a list of
`SpawnEvent`s, the heartbeat task a list of timed emissions, the receive
loop a fold over the list of inbound frames.
-/

namespace Tonsoe

/-- From `src/lib.rs`: `pub const DISCORD_API_VERSION: u32 = 10;`. -/
def DISCORD_API_VERSION : Nat := 10

/-- From `src/gateway_structs.rs`: the `SessionStartLimit` struct
(serde renames `total`/`remaining` do not matter here; only
`max_concurrency` is consumed by the core). -/
structure SessionStartLimit where
  total_sessions : Nat
  remaining_sessions : Nat
  reset_after : Nat
  max_concurrency : Nat
deriving Repr, DecidableEq

/-- From `src/gateway_structs.rs`: the `GetGatewayBotResponse` struct. -/
structure GetGatewayBotResponse where
  url : String
  shards : Nat
  session_start_limit : SessionStartLimit
deriving Repr, DecidableEq

/-- From `src/bot.rs`: the `ShardingOption` enum. -/
inductive ShardingOption where
  | Automatic : ShardingOption
  | SetAmount (amount : Nat) : ShardingOption
deriving Repr, DecidableEq

/-- From `src/gateway_structs.rs`: the `Hello` payload struct. -/
structure Hello where
  heartbeat_interval : Nat
deriving Repr, DecidableEq

/-- From `src/gateway_structs.rs`: the `IdentifyConnectionProperties`
struct (the `&'static str` fields are modelled as `String`). -/
structure IdentifyConnectionProperties where
  operating_system : String
  browser : String
  device : String
deriving Repr, DecidableEq

/-- From `src/gateway_structs.rs`: the `Identify` struct
(`token: Arc<str>` modelled as `String`, `shard: [u32; 2]` as a pair). -/
structure Identify where
  token : String
  connection_properties : IdentifyConnectionProperties
  shard : Nat × Nat
  intents : Nat
deriving Repr, DecidableEq

/-- From `src/gateway_structs.rs`: the generic wire envelope
`Payload<T>` with fields `opcode`/`data`/`sequence_number`/`event_name`
(serde-renamed on the wire to `op`/`d`/`s`/`t`). -/
structure Payload (T : Type) where
  opcode : Nat
  data : T
  sequence_number : Option Nat
  event_name : Option String
deriving Repr, DecidableEq

/-- From `src/gateway_structs.rs`: `Payload::new`, which sets only the
opcode and data fields and leaves `sequence_number`/`event_name` unset. -/
def Payload.new {T : Type} (opcode : Nat) (data : T) : Payload T :=
  { opcode := opcode, data := data, sequence_number := none, event_name := none }

/-- From `src/gateway.rs`: the `GatewayCommand` enum
(`Heartbeat(Payload<u32>)`, `Identify(Payload<Identify>)`). -/
inductive GatewayCommand where
  | Heartbeat (p : Payload Nat) : GatewayCommand
  | Identify (p : Payload Tonsoe.Identify) : GatewayCommand
deriving Repr, DecidableEq

/-- From `src/gateway.rs`: the `GatewayConnectionIdentifier` struct; the
`sequence_identifier: Arc<AtomicU32>` shared cell is modelled by its
current contents. -/
structure GatewayConnectionIdentifier where
  shard_id : Nat
  shard_total : Nat
  heartbeat_interval : Nat
  sequence_identifier : Nat
deriving Repr, DecidableEq

/-! ### The bucketed shard-spawning loop (`DiscordGatewayClient::new_with_shards`) -/

/-- Observable events of the spawn loop in `new_with_shards`
(`src/websocket.rs` lines 99–123). `cooldown` is the 5-second
`tokio::time::sleep`; `attempt i` is the invocation of
`add_shard_to_map` for shard `i` (the connect step); `panicModZero i`
records the Rust panic raised by `i % max_concurrency` when
`max_concurrency == 0`; `panicShardFail i` records the
`.expect("Attempted to spawn shard")` panic that aborts the spawning task
when `add_shard_to_map` returns an error for shard `i`. -/
inductive SpawnEvent where
  | cooldown : SpawnEvent
  | attempt (shard_id : Nat) : SpawnEvent
  | panicModZero (shard_id : Nat) : SpawnEvent
  | panicShardFail (shard_id : Nat) : SpawnEvent
deriving Repr, DecidableEq

/-- The fixed bucket cooldown: `tokio::time::Duration::from_secs(5)`. -/
def cooldownSeconds : Nat := 5

/-- The body of the `for shard_id in 0..shard_amount` loop of
`new_with_shards`, iterated over the remaining shard indices. For each
index: evaluating `shard_id % max_concurrency` panics if
`max_concurrency = 0` (Rust remainder by zero); otherwise, if
`shard_id % max_concurrency == 0 && shard_id != 0`, the loop sleeps for
the cooldown; then `add_shard_to_map` is attempted, and on error the
`.expect` panic aborts the whole task, so no further index is visited.
`openOk i` is the environment's verdict on whether shard `i`'s
open/handshake succeeds. -/
def spawnEvents (max_concurrency : Nat) (openOk : Nat → Bool) : List Nat → List SpawnEvent
  | [] => []
  | shard_id :: rest =>
    if max_concurrency = 0 then [SpawnEvent.panicModZero shard_id]
    else
      (if shard_id % max_concurrency = 0 ∧ shard_id ≠ 0 then [SpawnEvent.cooldown] else [])
        ++ SpawnEvent.attempt shard_id ::
          (if openOk shard_id then spawnEvents max_concurrency openOk rest
           else [SpawnEvent.panicShardFail shard_id])

/-- The full trace of the spawning task of `new_with_shards` for
`shard_amount` shards (`for shard_id in 0..shard_amount`). -/
def spawnTrace (shard_amount max_concurrency : Nat) (openOk : Nat → Bool) : List SpawnEvent :=
  spawnEvents max_concurrency openOk (List.range shard_amount)

/-- The `Identify` value built for shard `shard_id` at the top of the
spawn-loop body (`src/websocket.rs` lines 102–107). -/
def mkShardIdentify (token : String) (connection_properties : IdentifyConnectionProperties)
    (shard_id shard_amount intents : Nat) : Identify :=
  { token := token
    connection_properties := connection_properties
    shard := (shard_id, shard_amount)
    intents := intents }

/-- The identify payload for a shard: `Payload::new(2, shard_identify)`
(`src/websocket.rs` line 110). -/
def mkIdentifyPayload (token : String) (connection_properties : IdentifyConnectionProperties)
    (shard_id shard_amount intents : Nat) : Payload Identify :=
  Payload.new 2 (mkShardIdentify token connection_properties shard_id shard_amount intents)

/-- The error message returned by `new_with_shards` for a manual shard
amount of zero (`src/websocket.rs` line 62). -/
def shardAmountError : String := "Amount of shards set manually must be > 0"

/-- Shard-count resolution at the top of `new_with_shards`
(`src/websocket.rs` lines 51–67): `Automatic` uses the recommended count
from the `gateway/bot` response; `SetAmount(amount)` returns an error when
`amount == 0` and otherwise uses `amount`. -/
def resolveShardAmount : ShardingOption → GetGatewayBotResponse → Except String Nat
  | ShardingOption.Automatic, resp => Except.ok resp.shards
  | ShardingOption.SetAmount amount, _ =>
      if amount = 0 then Except.error shardAmountError else Except.ok amount

/-- The gateway websocket URL string built once by `new_with_shards`
(`src/websocket.rs` line 73):
`format!("\x7b\x7d/?v\x7b\x7d&encoding=json", gateway_bot_response.url, DISCORD_API_VERSION)`. -/
def gatewayUrlString (url : String) : String :=
  url ++ "/?v" ++ toString DISCORD_API_VERSION ++ "&encoding=json"

/-- The overall behaviour of `new_with_shards` as observable from its
result: either the shard-count resolution fails (returned as `Err` before
the spawning task — and hence any connect attempt — exists), or the
spawning task runs and produces its trace of events. -/
def new_with_shards_trace (opt : ShardingOption) (resp : GetGatewayBotResponse)
    (openOk : Nat → Bool) : Except String (List SpawnEvent) :=
  match resolveShardAmount opt resp with
  | Except.error e => Except.error e
  | Except.ok n => Except.ok (spawnTrace n resp.session_start_limit.max_concurrency openOk)

/-! ### Per-shard handshake (`ShardMap::add_shard_to_map`) -/

/-- The environment's outcome for one shard's connect-and-first-frame step
in `add_shard_to_map` (`src/websocket.rs` lines 154–162):
`connectFail` — `tokio_tungstenite::connect_async` fails; `helloFail` —
the first inbound frame is missing or does not deserialize as
`Payload<Hello>`; `hello p` — the first frame deserializes to `p`. -/
inductive ConnectOutcome where
  | connectFail : ConnectOutcome
  | helloFail : ConnectOutcome
  | hello (p : Payload Hello) : ConnectOutcome
deriving Repr, DecidableEq

/-- From `src/gateway.rs`: the `Gateway` struct; the two channel senders
are not data, so only the `connection_id` field is carried. -/
structure Gateway where
  connection_id : GatewayConnectionIdentifier
deriving Repr, DecidableEq

/-- The result of `add_shard_to_map`: `panicConnect` — the
`.expect("Attempted to create Gateway Shard")` panic on a connect
failure; `helloError` — the `Err` (propagated with `?` and a context
message) when the Hello payload cannot be read; `ok g enqueued` — success
with the constructed `Gateway` and the ordered list of commands the
function itself placed on the shard's outbound command queue before
returning (the heartbeat task is spawned only afterwards). -/
inductive AddShardResult where
  | panicConnect : AddShardResult
  | helloError (msg : String) : AddShardResult
  | ok (gateway : Gateway) (enqueued : List GatewayCommand) : AddShardResult
deriving Repr, DecidableEq

/-- The context message attached to a failed Hello read
(`src/websocket.rs` line 162). -/
def helloErrorMsg : String := "Failed to recieve Hello Payload from Discord Gateway"

/-- Shallow embedding of `ShardMap::add_shard_to_map`
(`src/websocket.rs` lines 143–207): connect (panics on failure), read the
Hello payload (error on failure), build the `GatewayConnectionIdentifier`
with the Hello's heartbeat interval and a fresh `AtomicU32::new(0)`
sequence cell, enqueue the identify payload as the first command, and
return the `Gateway` that is inserted into the shard map. -/
def add_shard_to_map (shard_id shard_amount : Nat) (identify_payload : Payload Identify)
    (outcome : ConnectOutcome) : AddShardResult :=
  match outcome with
  | ConnectOutcome.connectFail => AddShardResult.panicConnect
  | ConnectOutcome.helloFail => AddShardResult.helloError helloErrorMsg
  | ConnectOutcome.hello p =>
      AddShardResult.ok
        { connection_id :=
            { shard_id := shard_id
              shard_total := shard_amount
              heartbeat_interval := p.data.heartbeat_interval
              sequence_identifier := 0 } }
        [GatewayCommand.Identify identify_payload]

/-! ### The heartbeat task (`Gateway::heartbeat`) -/

/-- The heartbeat command built in each loop iteration of
`Gateway::heartbeat` (`src/gateway.rs` lines 81–82): the current value of
the shared sequence cell is loaded and wrapped as `Payload::new(1, seq)`. -/
def heartbeatCommand (previous_sequence_number : Nat) : GatewayCommand :=
  GatewayCommand.Heartbeat (Payload.new 1 previous_sequence_number)

/-- State of the heartbeat task: the current time (in milliseconds, as a
rational) and the ordered list of `(emission time, command)` pairs sent
so far through the sink channel. -/
structure HeartbeatState where
  now : ℚ
  emitted : List (ℚ × GatewayCommand)
deriving DecidableEq

/-- The initial sleep of `Gateway::heartbeat`
(`src/gateway.rs` lines 69–76): starting from time 0, the task sleeps for
`Duration::mul_f32(heartbeat_interval, jitter)` before its first
emission. The `f32` jitter drawn by `rand::random::<f32>()` (a value in
`[0, 1)`) is modelled as a rational parameter. -/
def heartbeatInit (heartbeat_interval jitter : ℚ) : HeartbeatState :=
  { now := heartbeat_interval * jitter, emitted := [] }

/-- One iteration of the `loop` in `Gateway::heartbeat`
(`src/gateway.rs` lines 78–90): load the shared sequence cell (modelled
by `cell`, the cell's contents as a function of time), send
`GatewayCommand::Heartbeat(Payload::new(1, seq))`, then sleep for exactly
`heartbeat_interval`. -/
def heartbeatStep (heartbeat_interval : ℚ) (cell : ℚ → Nat) (s : HeartbeatState) :
    HeartbeatState :=
  { now := s.now + heartbeat_interval
    emitted := s.emitted ++ [(s.now, heartbeatCommand (cell s.now))] }

/-- The heartbeat task after its initial sleep and `k` loop iterations. -/
def heartbeatRun (heartbeat_interval jitter : ℚ) (cell : ℚ → Nat) : Nat → HeartbeatState
  | 0 => heartbeatInit heartbeat_interval jitter
  | k + 1 => heartbeatStep heartbeat_interval cell (heartbeatRun heartbeat_interval jitter cell k)

/-! ### The event receiver (`Gateway::recieve_gateway_events`) -/

/-- The shared per-connection state visible to the receive loop: the
contents of the `sequence_identifier` cell. -/
structure ReceiverState where
  sequence_identifier : Nat
deriving Repr, DecidableEq

/-- The body of the `while let _payload = read_stream.next().await` loop
of `Gateway::recieve_gateway_events` (`src/gateway.rs` lines 96–98). The
body is empty in the source: the frame is bound to `_payload` and
discarded — nothing is deserialized, the sequence cell is not written,
and nothing is republished. -/
def recieve_loop_body (s : ReceiverState) (_frame : String) : ReceiverState := s

/-- `Gateway::recieve_gateway_events` over a finite prefix of the inbound
frame stream: the loop processes each frame in order with the (empty)
loop body. -/
def recieve_gateway_events (s : ReceiverState) (frames : List String) : ReceiverState :=
  frames.foldl recieve_loop_body s

/-! ### The wire codec (serde derives on the payload structs)

The serde derives on `Payload<T>`, `Hello`, `Identify` and
`IdentifyConnectionProperties` determine a JSON representation; it is
modelled here at the level of a JSON value tree (`serde_json`'s string
rendering and parsing are not re-modelled — encoding and decoding are
related at the value level). Field order and the serde `rename`
attributes (`op`/`d`/`s`/`t`, `properties`, `os`) follow the struct
declarations in `src/gateway_structs.rs`. -/

/-- A JSON value, as far as the gateway payloads need. -/
inductive Json where
  | null : Json
  | num (n : Nat) : Json
  | str (s : String) : Json
  | arr (elems : List Json) : Json
  | obj (fields : List (String × Json)) : Json

/-- Serialization of an `Option<u32>` field: serde emits `null` for
`None` and the number for `Some`. -/
def encodeOptNat : Option Nat → Json
  | none => Json.null
  | some n => Json.num n

/-- Serialization of an `Option<String>` field. -/
def encodeOptStr : Option String → Json
  | none => Json.null
  | some s => Json.str s

/-- Serialization of `Hello` (derived `Serialize`). -/
def encodeHello (h : Hello) : Json :=
  Json.obj [("heartbeat_interval", Json.num h.heartbeat_interval)]

/-- Serialization of `IdentifyConnectionProperties` (derived `Serialize`;
`operating_system` is renamed to `os`). -/
def encodeConnectionProperties (cp : IdentifyConnectionProperties) : Json :=
  Json.obj [("os", Json.str cp.operating_system),
            ("browser", Json.str cp.browser),
            ("device", Json.str cp.device)]

/-- Serialization of `Identify` (derived `Serialize`;
`connection_properties` is renamed to `properties`). -/
def encodeIdentify (i : Identify) : Json :=
  Json.obj [("token", Json.str i.token),
            ("properties", encodeConnectionProperties i.connection_properties),
            ("shard", Json.arr [Json.num i.shard.1, Json.num i.shard.2]),
            ("intents", Json.num i.intents)]

/-- Serialization of `Payload<T>` (derived `Serialize`; fields renamed to
`op`, `d`, `s`, `t`), parametrised by the serializer of `T`. -/
def encodePayload {T : Type} (encData : T → Json) (p : Payload T) : Json :=
  Json.obj [("op", Json.num p.opcode),
            ("d", encData p.data),
            ("s", encodeOptNat p.sequence_number),
            ("t", encodeOptStr p.event_name)]

/-- Field lookup in a JSON object (first occurrence wins, as in the
payloads the client itself produces, which never repeat a key). -/
def lookupField (name : String) : List (String × Json) → Option Json
  | [] => none
  | (k, v) :: rest => if k = name then some v else lookupField name rest

/-- Field access on a JSON value; `none` when the value is not an object
or lacks the field. -/
def Json.getField : Json → String → Option Json
  | Json.obj fields, name => lookupField name fields
  | _, _ => none

/-- Deserialization of a `u32` field. -/
def decodeNat : Json → Option Nat
  | Json.num n => some n
  | _ => none

/-- Deserialization of a string field. -/
def decodeStr : Json → Option String
  | Json.str s => some s
  | _ => none

/-- Deserialization of an `Option<u32>` field: serde accepts a missing
field or `null` as `None` and a number as `Some`. -/
def decodeOptNat : Option Json → Option (Option Nat)
  | none => some none
  | some Json.null => some none
  | some (Json.num n) => some (some n)
  | some _ => none

/-- Deserialization of an `Option<String>` field. -/
def decodeOptStr : Option Json → Option (Option String)
  | none => some none
  | some Json.null => some none
  | some (Json.str s) => some (some s)
  | some _ => none

/-- Deserialization of `Hello` (derived `Deserialize`). -/
def decodeHello (j : Json) : Option Hello := do
  let f ← j.getField "heartbeat_interval"
  let n ← decodeNat f
  pure { heartbeat_interval := n }

/-- Deserialization of a `[u32; 2]` field. -/
def decodeShardPair : Json → Option (Nat × Nat)
  | Json.arr [Json.num a, Json.num b] => some (a, b)
  | _ => none

/-- Deserialization of `IdentifyConnectionProperties`, determined by the
struct declaration and its `rename` attribute. The source derives only
`Serialize` for this struct (the client never reads one back); the
decoder is the one serde would derive from the same declaration. -/
def decodeConnectionProperties (j : Json) : Option IdentifyConnectionProperties := do
  let os ← decodeStr (← j.getField "os")
  let browser ← decodeStr (← j.getField "browser")
  let device ← decodeStr (← j.getField "device")
  pure { operating_system := os, browser := browser, device := device }

/-- Deserialization of `Identify`, determined by the struct declaration
and its `rename` attribute. The source derives only `Serialize` for
`Identify` (the client never reads one back); the decoder is the one
serde would derive from the same declaration. -/
def decodeIdentify (j : Json) : Option Identify := do
  let token ← decodeStr (← j.getField "token")
  let props ← decodeConnectionProperties (← j.getField "properties")
  let shard ← decodeShardPair (← j.getField "shard")
  let intents ← decodeNat (← j.getField "intents")
  pure { token := token, connection_properties := props, shard := shard, intents := intents }

/-- Deserialization of `Payload<T>` (derived `Deserialize`, generic in
the deserializer of `T`): the `op` and `d` fields are required, `s` and
`t` are `Option` fields. -/
def decodePayload {T : Type} (decData : Json → Option T) (j : Json) : Option (Payload T) := do
  let op ← decodeNat (← j.getField "op")
  let d ← decData (← j.getField "d")
  let s ← decodeOptNat (j.getField "s")
  let t ← decodeOptStr (j.getField "t")
  pure { opcode := op, data := d, sequence_number := s, event_name := t }

/-! ### Derived views of the spawn trace -/

/-- The per-shard event block predicted for a successful shard `i`: a
cooldown exactly when `i` is a positive bucket boundary, then the open
attempt. (This is the spec's phrasing of the bucket rule, `0 < i ∧
i % b = 0`; the source tests `i % b == 0 && i != 0`.) -/
def shardBlock (max_concurrency shard_id : Nat) : List SpawnEvent :=
  (if 0 < shard_id ∧ shard_id % max_concurrency = 0 then [SpawnEvent.cooldown] else [])
    ++ [SpawnEvent.attempt shard_id]

/-- Concatenation of the per-shard blocks over a list of shard indices. -/
def blocksOf (max_concurrency : Nat) : List Nat → List SpawnEvent
  | [] => []
  | i :: rest => shardBlock max_concurrency i ++ blocksOf max_concurrency rest

/-- The shard indices attempted in a spawn trace, in order. -/
def attemptIds (tr : List SpawnEvent) : List Nat :=
  tr.filterMap (fun e => match e with | SpawnEvent.attempt i => some i | _ => none)

/-- The number of cooldown waits in a spawn trace. -/
def cooldownCount (tr : List SpawnEvent) : Nat :=
  tr.countP (fun e => match e with | SpawnEvent.cooldown => true | _ => false)

/-- Every cooldown in the trace is immediately followed by the open
attempt of a shard `i` with `0 < i` and `i % b = 0`. -/
def cooldownsPrecedeBucketAttempts (b : Nat) : List SpawnEvent → Prop
  | [] => True
  | SpawnEvent.cooldown :: rest =>
      (∃ i, rest.head? = some (SpawnEvent.attempt i) ∧ 0 < i ∧ i % b = 0) ∧
        cooldownsPrecedeBucketAttempts b rest
  | _ :: rest => cooldownsPrecedeBucketAttempts b rest

theorem bucket_cond_iff (b i : Nat) : (i % b = 0 ∧ i ≠ 0) ↔ (0 < i ∧ i % b = 0) := by
  constructor
  · rintro ⟨h1, h2⟩
    exact ⟨Nat.pos_of_ne_zero h2, h1⟩
  · rintro ⟨h1, h2⟩
    exact ⟨h2, Nat.pos_iff_ne_zero.mp h1⟩

theorem spawnEvents_append_ok (b : Nat) (hb : b ≠ 0) (openOk : Nat → Bool) :
    ∀ l1 l2 : List Nat, (∀ j ∈ l1, openOk j = true) →
      spawnEvents b openOk (l1 ++ l2) = blocksOf b l1 ++ spawnEvents b openOk l2 := by
  intro l1
  induction l1 with
  | nil => intro l2 _; rfl
  | cons i rest ih =>
    intro l2 hok
    have hoki : openOk i = true := hok i (by simp)
    have hrest : ∀ j ∈ rest, openOk j = true := fun j hj => hok j (by simp [hj])
    simp only [List.cons_append, spawnEvents, if_neg hb, hoki, if_true, blocksOf, shardBlock,
      bucket_cond_iff, List.append_assoc, List.singleton_append]
    simp [ih l2 hrest]

theorem spawnEvents_eq_blocksOf (b : Nat) (hb : b ≠ 0) (l : List Nat) :
    spawnEvents b (fun _ => true) l = blocksOf b l := by
  have h := spawnEvents_append_ok b hb (fun _ => true) l [] (fun _ _ => rfl)
  simpa [spawnEvents] using h

theorem spawnEvents_fail_head (b : Nat) (hb : b ≠ 0) (openOk : Nat → Bool) (i : Nat)
    (l2 : List Nat) (hfail : openOk i = false) :
    spawnEvents b openOk (i :: l2) =
      (if 0 < i ∧ i % b = 0 then [SpawnEvent.cooldown] else [])
        ++ [SpawnEvent.attempt i, SpawnEvent.panicShardFail i] := by
  simp only [spawnEvents, if_neg hb, hfail, Bool.false_eq_true, if_false, bucket_cond_iff]

theorem attemptIds_blocksOf (b : Nat) (l : List Nat) : attemptIds (blocksOf b l) = l := by
  induction l with
  | nil => rfl
  | cons i rest ih =>
    by_cases h : 0 < i ∧ i % b = 0 <;>
      simp [blocksOf, shardBlock, attemptIds, h, List.filterMap_append] <;>
      simpa [attemptIds] using ih

theorem cooldownCount_blocksOf (b : Nat) (l : List Nat) :
    cooldownCount (blocksOf b l) =
      l.countP (fun i => decide (0 < i ∧ i % b = 0)) := by
  induction l with
  | nil => rfl
  | cons i rest ih =>
    by_cases h : 0 < i ∧ i % b = 0 <;>
      simp [blocksOf, shardBlock, cooldownCount, List.countP_cons, h, List.countP_append] <;>
      simpa [cooldownCount] using ih

theorem countP_range_bucket (b : Nat) :
    ∀ m : Nat, (List.range (m + 1)).countP (fun i => decide (0 < i ∧ i % b = 0)) = m / b := by
  intro m
  induction m with
  | zero => simp
  | succ k ih =>
    rw [List.range_succ, List.countP_append, ih]
    by_cases h : b ∣ (k + 1)
    · have hmod : (k + 1) % b = 0 := Nat.dvd_iff_mod_eq_zero.mp h
      simp [List.countP_cons, hmod, Nat.succ_div, h]
    · have hmod : (k + 1) % b ≠ 0 := fun hc => h (Nat.dvd_iff_mod_eq_zero.mpr hc)
      simp [List.countP_cons, hmod, Nat.succ_div, h]

theorem cooldownsPrecedeBucketAttempts_blocksOf (b : Nat) (l : List Nat) :
    cooldownsPrecedeBucketAttempts b (blocksOf b l) := by
  induction l with
  | nil => trivial
  | cons i rest ih =>
    by_cases h : 0 < i ∧ i % b = 0
    · show cooldownsPrecedeBucketAttempts b (blocksOf b (i :: rest))
      have : blocksOf b (i :: rest) =
          SpawnEvent.cooldown :: SpawnEvent.attempt i :: blocksOf b rest := by
        simp [blocksOf, shardBlock, h]
      rw [this]
      exact ⟨⟨i, rfl, h⟩, ih⟩
    · have : blocksOf b (i :: rest) = SpawnEvent.attempt i :: blocksOf b rest := by
        simp [blocksOf, shardBlock, h]
      rw [this]
      exact ih

theorem attempt_mem_blocksOf (b j : Nat) (l : List Nat) :
    SpawnEvent.attempt j ∈ blocksOf b l ↔ j ∈ l := by
  induction l with
  | nil => simp [blocksOf]
  | cons i rest ih =>
    by_cases h : 0 < i ∧ i % b = 0 <;>
      simp [blocksOf, shardBlock, h, ih, eq_comm]

/-- C1 helper: with every shard open succeeding and a positive bucket
size, the spawn trace is exactly the concatenation of per-shard blocks. -/
theorem spawnTrace_all_ok (n b : Nat) (hb : 0 < b) :
    spawnTrace n b (fun _ => true) = blocksOf b (List.range n) :=
  spawnEvents_eq_blocksOf b (Nat.pos_iff_ne_zero.mp hb) (List.range n)

/-! ### Claim C1 -/

/-- C1: for every shard count `n > 0` and bucket size `b > 0`, the
startup loop of `new_with_shards` (with every shard open succeeding)
attempts shard indices in strictly increasing order `0..n` (the attempted
ids are exactly `List.range n`), its trace is the concatenation of the
per-shard blocks in which a cooldown wait stands exactly before the open
attempt of each shard `i` with `i > 0` and `i % b = 0`, every cooldown in
the trace is immediately followed by such an attempt, and the total
number of cooldown waits is exactly `ceil(n / b) - 1 = (n + b - 1) / b - 1`. -/
theorem C1_bucketed_startup (n b : Nat) (hn : 0 < n) (hb : 0 < b) :
    spawnTrace n b (fun _ => true) = blocksOf b (List.range n) ∧
    attemptIds (spawnTrace n b (fun _ => true)) = List.range n ∧
    cooldownsPrecedeBucketAttempts b (spawnTrace n b (fun _ => true)) ∧
    cooldownCount (spawnTrace n b (fun _ => true)) = (n + b - 1) / b - 1 := by
  have htr := spawnTrace_all_ok n b hb
  refine ⟨htr, ?_, ?_, ?_⟩
  · rw [htr, attemptIds_blocksOf]
  · rw [htr]
    exact cooldownsPrecedeBucketAttempts_blocksOf b (List.range n)
  · rw [htr, cooldownCount_blocksOf]
    obtain ⟨m, rfl⟩ : ∃ m, n = m + 1 := ⟨n - 1, (Nat.succ_pred_eq_of_pos hn).symm⟩
    rw [countP_range_bucket b m]
    have h2 : (m + 1 + b - 1) / b = m / b + 1 := by
      have h3 : m + 1 + b - 1 = m + b := by omega
      rw [h3, Nat.add_div_right m hb]
    rw [h2, Nat.add_sub_cancel]

/-- Witness for C1 at `n = 5`, `b = 2`: the startup of 5 shards with
bucket size 2 issues exactly `ceil(5 / 2) - 1 = 2` cooldown waits. -/
theorem C1_bucketed_startup_witness :
    cooldownCount (spawnTrace 5 2 (fun _ => true)) = 2 := by
  have h := (C1_bucketed_startup 5 2 (by decide) (by decide)).2.2.2
  simpa using h

/-! ### Claim C3 -/

/-- C3 counterexample: with 2 shards, bucket size 1 and shard 0's open
failing, the spawning task's trace is `[attempt 0, panicShardFail 0]` —
the `.expect` panic aborts the whole task and shard 1's startup never
proceeds, contradicting the claim that a failure aborts only the failing
shard while the remaining shards still start. -/
theorem C3_counterexample :
    spawnTrace 2 1 (fun i => decide (i ≠ 0)) =
        [SpawnEvent.attempt 0, SpawnEvent.panicShardFail 0] ∧
      SpawnEvent.attempt 1 ∉ spawnTrace 2 1 (fun i => decide (i ≠ 0)) := by
  decide

/-- C3 (amended): when shard `i`'s open or handshake fails (and all
earlier shards succeeded), the failure is reported — the
`panicShardFail i` event, the `.expect("Attempted to spawn shard")` panic
carrying the error, appears in the trace after shard `i` was attempted —
but the panic aborts the entire spawning task, so no shard with index
greater than `i` is ever attempted. -/
theorem C3_failure_aborts_spawning_task (n b i : Nat) (openOk : Nat → Bool)
    (hb : 0 < b) (hi : i < n) (hfail : openOk i = false)
    (hpre : ∀ j, j < i → openOk j = true) :
    SpawnEvent.attempt i ∈ spawnTrace n b openOk ∧
    SpawnEvent.panicShardFail i ∈ spawnTrace n b openOk ∧
    ∀ j, i < j → SpawnEvent.attempt j ∉ spawnTrace n b openOk := by
  have hb' : b ≠ 0 := Nat.pos_iff_ne_zero.mp hb
  obtain ⟨k, hk⟩ : ∃ k, n - i = k + 1 := ⟨n - i - 1, by omega⟩
  have hsplit : List.range n = List.range i ++ i :: List.map (fun x => i + x) (List.map Nat.succ (List.range k)) := by
    have h1 : n = i + (k + 1) := by omega
    rw [h1, List.range_add, List.range_succ_eq_map]
    simp
  have hpre' : ∀ j ∈ List.range i, openOk j = true := by
    intro j hj
    exact hpre j (List.mem_range.mp hj)
  have htr : spawnTrace n b openOk =
      blocksOf b (List.range i) ++
        ((if 0 < i ∧ i % b = 0 then [SpawnEvent.cooldown] else [])
          ++ [SpawnEvent.attempt i, SpawnEvent.panicShardFail i]) := by
    rw [spawnTrace, hsplit, spawnEvents_append_ok b hb' openOk _ _ hpre',
      spawnEvents_fail_head b hb' openOk i _ hfail]
  refine ⟨?_, ?_, ?_⟩
  · rw [htr]; simp
  · rw [htr]; simp
  · intro j hj hmem
    rw [htr] at hmem
    rcases List.mem_append.mp hmem with hmem1 | hmem2
    · have := (attempt_mem_blocksOf b j (List.range i)).mp hmem1
      exact absurd (List.mem_range.mp this) (by omega)
    · rcases List.mem_append.mp hmem2 with hmem3 | hmem4
      · by_cases hcool : 0 < i ∧ i % b = 0 <;> simp [hcool] at hmem3
      · simp at hmem4
        omega

/-- Witness for C3 (amended) at `n = 3`, `b = 1`, shard 1 failing:
shard 1 is attempted, the panic is reported, shard 2 never starts. -/
theorem C3_failure_aborts_spawning_task_witness :
    SpawnEvent.attempt 2 ∉ spawnTrace 3 1 (fun i => decide (i ≠ 1)) := by
  have h := (C3_failure_aborts_spawning_task 3 1 1 (fun i => decide (i ≠ 1))
    (by decide) (by decide) (by decide) (by decide)).2.2
  exact h 2 (by decide)

/-! ### Claim C9 -/

/-- Helper: with `max_concurrency = 0` and at least one shard, the spawn
loop's first iteration evaluates `0 % 0` and panics. -/
theorem spawnTrace_max_concurrency_zero (n : Nat) (openOk : Nat → Bool) (hn : 0 < n) :
    spawnTrace n 0 openOk = [SpawnEvent.panicModZero 0] := by
  obtain ⟨m, rfl⟩ : ∃ m, n = m + 1 := ⟨n - 1, (Nat.succ_pred_eq_of_pos hn).symm⟩
  rw [spawnTrace, List.range_succ_eq_map]
  simp [spawnEvents]

/-- C9: if the server-supplied `max_concurrency` is `0` and the resolved
shard count is at least 1, the bucket condition
`shard_id % session_limits.max_concurrency` divides by zero and the
spawning task panics before any open attempt; consequently any trace that
attempts a shard at all can only arise when `max_concurrency > 0`. -/
theorem C9_max_concurrency_zero_panics (n : Nat) (openOk : Nat → Bool) (hn : 0 < n) :
    spawnTrace n 0 openOk = [SpawnEvent.panicModZero 0] ∧
    (∀ m b i : Nat, ∀ ok : Nat → Bool,
      SpawnEvent.attempt i ∈ spawnTrace m b ok → 0 < b) := by
  refine ⟨spawnTrace_max_concurrency_zero n openOk hn, ?_⟩
  intro m b i ok hmem
  by_contra hb
  have hb0 : b = 0 := by omega
  subst hb0
  rcases Nat.eq_zero_or_pos m with hm | hm
  · subst hm
    simp [spawnTrace, spawnEvents] at hmem
  · rw [spawnTrace_max_concurrency_zero m ok hm] at hmem
    simp at hmem

/-- Witness for C9 at `n = 3`: spawning 3 shards with
`max_concurrency = 0` panics on the modulo immediately, before any open
attempt. -/
theorem C9_max_concurrency_zero_panics_witness :
    spawnTrace 3 0 (fun _ => true) = [SpawnEvent.panicModZero 0] :=
  (C9_max_concurrency_zero_panics 3 (fun _ => true) (by decide)).1

/-! ### Claim C5 -/

/-- C5: with sharding policy `SetAmount 0`, `new_with_shards` returns the
invalid-shard-count configuration error before the spawning task — the
only producer of connect attempts — is created, so the result carries no
spawn trace at all; with `Automatic` the resolved count is the
server-recommended `resp.shards`; with `SetAmount n` for `n > 0` it is
`n`. -/
theorem C5_shard_count_resolution :
    (∀ (resp : GetGatewayBotResponse) (openOk : Nat → Bool),
      new_with_shards_trace (ShardingOption.SetAmount 0) resp openOk =
        Except.error shardAmountError) ∧
    (∀ resp : GetGatewayBotResponse,
      resolveShardAmount ShardingOption.Automatic resp = Except.ok resp.shards) ∧
    (∀ (n : Nat) (resp : GetGatewayBotResponse), 0 < n →
      resolveShardAmount (ShardingOption.SetAmount n) resp = Except.ok n) := by
  refine ⟨fun resp openOk => rfl, fun resp => rfl, fun n resp hn => ?_⟩
  simp [resolveShardAmount, Nat.pos_iff_ne_zero.mp hn]

/-- Witness for C5: a manual amount of 3 shards resolves to 3 on a
concrete `gateway/bot` response. -/
theorem C5_shard_count_resolution_witness :
    resolveShardAmount (ShardingOption.SetAmount 3)
      { url := "wss://gateway.discord.gg"
        shards := 1
        session_start_limit :=
          { total_sessions := 1000, remaining_sessions := 999,
            reset_after := 0, max_concurrency := 1 } } = Except.ok 3 :=
  C5_shard_count_resolution.2.2 3
    { url := "wss://gateway.discord.gg"
      shards := 1
      session_start_limit :=
        { total_sessions := 1000, remaining_sessions := 999,
          reset_after := 0, max_concurrency := 1 } } (by decide)

/-! ### Claim C6 -/

/-- C6: when the first inbound frame of a shard's handshake decodes as a
Hello payload with `heartbeat_interval = 40000`, `add_shard_to_map`
builds a connection identity with `heartbeat_interval = 40000` and
`sequence_identifier = 0` (no event has been received yet), and the only
— hence first — command it enqueues on the shard's outbound command
queue is the Identify command (the heartbeat task is spawned only after
this enqueue). -/
theorem C6_handshake_hello (shard_id shard_amount : Nat) (idp : Payload Identify)
    (p : Payload Hello) (h : p.data.heartbeat_interval = 40000) :
    add_shard_to_map shard_id shard_amount idp (ConnectOutcome.hello p) =
      AddShardResult.ok
        { connection_id :=
            { shard_id := shard_id
              shard_total := shard_amount
              heartbeat_interval := 40000
              sequence_identifier := 0 } }
        [GatewayCommand.Identify idp] := by
  simp [add_shard_to_map, h]

/-- Witness for C6 on a concrete Hello payload and identify payload. -/
theorem C6_handshake_hello_witness :
    add_shard_to_map 0 1
      (mkIdentifyPayload "token"
        { operating_system := "linux", browser := "tonsoe", device := "tonsoe" } 0 1 0)
      (ConnectOutcome.hello
        { opcode := 10, data := { heartbeat_interval := 40000 },
          sequence_number := none, event_name := none }) =
      AddShardResult.ok
        { connection_id :=
            { shard_id := 0, shard_total := 1,
              heartbeat_interval := 40000, sequence_identifier := 0 } }
        [GatewayCommand.Identify
          (mkIdentifyPayload "token"
            { operating_system := "linux", browser := "tonsoe", device := "tonsoe" } 0 1 0)] :=
  C6_handshake_hello 0 1
    (mkIdentifyPayload "token"
      { operating_system := "linux", browser := "tonsoe", device := "tonsoe" } 0 1 0)
    { opcode := 10, data := { heartbeat_interval := 40000 },
      sequence_number := none, event_name := none } rfl

/-! ### Claim C2 -/

/-- A well-formed inbound dispatch frame carrying sequence number 5, as
JSON text. -/
def dispatchFrameWithSeq5 : String :=
  "\x7b\"op\":0,\"d\":null,\"s\":5,\"t\":\"READY\"\x7d"

/-- C2: the Event Receiver loop of `Gateway::recieve_gateway_events` has
an empty body — it discards every inbound frame without decoding it, so
the shared `sequence_identifier` cell is never updated: the receiver
state is unchanged by any list of frames, and in particular processing a
well-formed frame carrying sequence number 5 leaves the cell at 0 instead
of setting it to 5 as the claim requires. -/
theorem C2_receiver_discards_frames :
    (∀ (s : ReceiverState) (frames : List String),
      recieve_gateway_events s frames = s) ∧
    (recieve_gateway_events { sequence_identifier := 0 }
        [dispatchFrameWithSeq5]).sequence_identifier = 0 := by
  constructor
  · intro s frames
    induction frames with
    | nil => rfl
    | cons f rest ih => simpa [recieve_gateway_events, recieve_loop_body] using ih
  · rfl

/-! ### Claim C8 -/

/-- Modelled from the spec: the URL form the spec states for the gateway
connection, `\x7bconnect_url\x7d?v=\x7bprotocol_version\x7d&encoding=json`
(section 6, "Wire protocol"). Compared below against `gatewayUrlString`,
the URL the source actually builds. -/
def specGatewayUrl (url : String) (protocol_version : Nat) : String :=
  url ++ "?v=" ++ toString protocol_version ++ "&encoding=json"

/-- C8: the URL built by `new_with_shards` from the server-provided
connect URL is `\x7burl\x7d/?v10&encoding=json` — the format string
`"\x7b\x7d/?v\x7b\x7d&encoding=json"` lacks the `=` after `v`, so the
protocol-version query parameter of the specified form
`?v=\x7bprotocol_version\x7d&encoding=json` is never produced: on the
server's URL the built string differs from the specified one. -/
theorem C8_url_missing_equals :
    gatewayUrlString "wss://gateway.discord.gg" =
        "wss://gateway.discord.gg/?v10&encoding=json" ∧
      gatewayUrlString "wss://gateway.discord.gg" ≠
        specGatewayUrl "wss://gateway.discord.gg" DISCORD_API_VERSION := by
  exact ⟨rfl, by decide⟩

/-! ### Heartbeat schedule lemmas -/

theorem heartbeatRun_now (I j : ℚ) (cell : ℚ → Nat) :
    ∀ k : Nat, (heartbeatRun I j cell k).now = I * j + k * I := by
  intro k
  induction k with
  | zero => simp [heartbeatRun, heartbeatInit]
  | succ m ih =>
    simp only [heartbeatRun, heartbeatStep, ih]
    push_cast
    ring

theorem heartbeatRun_emitted (I j : ℚ) (cell : ℚ → Nat) :
    ∀ k : Nat, (heartbeatRun I j cell k).emitted =
      (List.range k).map
        (fun (m : Nat) =>
          (I * j + (m : ℚ) * I, heartbeatCommand (cell (I * j + (m : ℚ) * I)))) := by
  intro k
  induction k with
  | zero => rfl
  | succ m ih =>
    simp [heartbeatRun, heartbeatStep, ih, List.range_succ, heartbeatRun_now]

/-! ### Claim C4 -/

/-- C4: the heartbeat task emits its `m`-th heartbeat (0-based) at time
`heartbeat_interval * jitter + m * heartbeat_interval` — the first after
the initial delay `heartbeat_interval * jitter` (a delay in
`[0, heartbeat_interval)` since the drawn jitter lies in `[0, 1)`), each
subsequent one exactly `heartbeat_interval` after the previous — and
each emitted command is `Heartbeat (Payload::new(1, seq))` where `seq` is
the value of the shared sequence cell read at that emission time, not a
copy from an earlier time. -/
theorem C4_heartbeat_schedule (heartbeat_interval : Nat) (jitter : ℚ) (cell : ℚ → Nat)
    (k : Nat) (hj0 : 0 ≤ jitter) (hj1 : jitter < 1) :
    ((heartbeatRun (heartbeat_interval : ℚ) jitter cell k).emitted.length = k) ∧
    (∀ m : Nat, m < k →
      (heartbeatRun (heartbeat_interval : ℚ) jitter cell k).emitted[m]? =
        some ((heartbeat_interval : ℚ) * jitter + m * heartbeat_interval,
          GatewayCommand.Heartbeat (Payload.new 1
            (cell ((heartbeat_interval : ℚ) * jitter + m * heartbeat_interval))))) ∧
    (0 ≤ (heartbeat_interval : ℚ) * jitter) ∧
    (0 < heartbeat_interval → (heartbeat_interval : ℚ) * jitter < heartbeat_interval) := by
  refine ⟨?_, ?_, ?_, ?_⟩
  · rw [heartbeatRun_emitted]
    simp
  · intro m hm
    rw [heartbeatRun_emitted, List.getElem?_map, List.getElem?_range hm]
    rfl
  · exact mul_nonneg (Nat.cast_nonneg _) hj0
  · intro hpos
    exact mul_lt_of_lt_one_right (by exact_mod_cast hpos) hj1

/-- Witness for C4: with interval 40000 ms and jitter 1/2, the first
heartbeat is emitted at time 20000 carrying the cell's value 7. -/
theorem C4_heartbeat_schedule_witness :
    (heartbeatRun ((40000 : Nat) : ℚ) (1 / 2) (fun _ => 7) 2).emitted[0]? =
      some (20000, GatewayCommand.Heartbeat (Payload.new 1 7)) := by
  have h := (C4_heartbeat_schedule 40000 (1 / 2) (fun _ => 7) 2
    (by norm_num) (by norm_num)).2.1 0 (by norm_num)
  norm_num at h
  exact h

/-! ### Claim C10 -/

/-- The wire-level sequence-number field and event-name field of a
command's envelope are both unset. -/
def commandSTNull : GatewayCommand → Prop
  | GatewayCommand.Heartbeat p => p.sequence_number = none ∧ p.event_name = none
  | GatewayCommand.Identify p => p.sequence_number = none ∧ p.event_name = none

/-- C10: every envelope the client builds itself goes through
`Payload::new`, which sets only opcode and data — so `s` and `t` are
`None` on every such envelope: on `Payload::new` itself, on the heartbeat
command built each loop iteration, on the identify payload built by the
spawn loop, and on every command the heartbeat task ever emits. -/
theorem C10_outbound_envelopes_null_s_t :
    (∀ (T : Type) (opcode : Nat) (data : T),
      (Payload.new opcode data).sequence_number = none ∧
        (Payload.new opcode data).event_name = none) ∧
    (∀ seq : Nat, heartbeatCommand seq =
      GatewayCommand.Heartbeat
        { opcode := 1, data := seq, sequence_number := none, event_name := none }) ∧
    (∀ (token : String) (cp : IdentifyConnectionProperties)
        (shard_id shard_amount intents : Nat),
      mkIdentifyPayload token cp shard_id shard_amount intents =
        { opcode := 2, data := mkShardIdentify token cp shard_id shard_amount intents,
          sequence_number := none, event_name := none }) ∧
    (∀ (heartbeat_interval jitter : ℚ) (cell : ℚ → Nat) (k : Nat) (t : ℚ)
        (cmd : GatewayCommand),
      (t, cmd) ∈ (heartbeatRun heartbeat_interval jitter cell k).emitted →
        commandSTNull cmd) := by
  refine ⟨fun T op d => ⟨rfl, rfl⟩, fun seq => rfl, fun tok cp a b c => rfl, ?_⟩
  intro I j cell k t cmd hmem
  rw [heartbeatRun_emitted] at hmem
  rcases List.mem_map.mp hmem with ⟨m, _, heq⟩
  have hcmd : heartbeatCommand (cell (I * j + (m : ℚ) * I)) = cmd :=
    congrArg Prod.snd heq
  rw [← hcmd]
  exact ⟨rfl, rfl⟩

/-- Witness for C10 on a concrete emitted heartbeat command. -/
theorem C10_outbound_envelopes_null_s_t_witness :
    commandSTNull (heartbeatCommand 3) :=
  C10_outbound_envelopes_null_s_t.2.2.2 1 0 (fun _ => 3) 1 0 (heartbeatCommand 3)
    (by simp [heartbeatRun, heartbeatInit, heartbeatStep])

/-! ### Claim C7 -/

/-- C7: decoding the encoding of an envelope yields the envelope again,
for every constructible envelope over the three supported payload types:
`Payload<Hello>`, `Payload<u32>` (heartbeat) and `Payload<Identify>`.
Encoding and decoding are related at the JSON-value level; for
`Identify` (for which the source derives only `Serialize`) the decoder
is the one determined by the struct declaration. -/
theorem C7_envelope_roundtrip :
    (∀ p : Payload Hello,
      decodePayload decodeHello (encodePayload encodeHello p) = some p) ∧
    (∀ p : Payload Nat,
      decodePayload decodeNat (encodePayload Json.num p) = some p) ∧
    (∀ p : Payload Identify,
      decodePayload decodeIdentify (encodePayload encodeIdentify p) = some p) := by
  refine ⟨?_, ?_, ?_⟩
  · rintro ⟨op, ⟨hi⟩, s, t⟩
    cases s <;> cases t <;> rfl
  · rintro ⟨op, d, s, t⟩
    cases s <;> cases t <;> rfl
  · rintro ⟨op, ⟨tok, ⟨os, br, dev⟩, ⟨a, b⟩, ints⟩, s, t⟩
    cases s <;> cases t <;> rfl

end Tonsoe
